import Mathlib

/-!
Shallow embedding of `pkg/repo/repo.go` from AISystemsInc/mongo-resource-repo.

The repository is a generic facade `Repository[M Model, I any]` over the
MongoDB Go driver.  The collaborator driver (connection, query execution,
cursor protocol, BSON decoding) is out of scope, so every operation is
embedded as a pure function of the collaborator's outcome: fallible Go code
returning `(T, error)` becomes `Except (RepoErr E) T`, where `E` is the
abstract type of collaborator errors.
-/

namespace MongoRepo

/-- What Go's `%T` verb prints for a value: a description of its dynamic
type.  Used by the identifier-conversion error messages. -/
abbrev TypeDesc := String

/-- A dynamically typed (`any`) identifier as found in driver write results
(`result.InsertedID`, `result.UpsertedID`).  Go's type assertion `v.(I)`
succeeds exactly on `typed`; on `foreign` it fails, and all the program can
still observe about the value is its dynamic type description (via `%T`). -/
inductive DynID (I : Type) where
  | typed (v : I)
  | foreign (desc : TypeDesc)

/-- The operation-kind sentinel errors declared at the top of `repo.go`
(`ErrFindOne`, `ErrFind`, `ErrFindStream`, `ErrInsertOne`, `ErrInsertMany`,
`ErrUpdateOne`, `ErrUpdateByID`, `ErrUpdateMany`, `ErrDeleteOne`,
`ErrDeleteMany`). -/
inductive Marker where
  | findOne
  | find
  | findStream
  | insertOne
  | insertMany
  | updateOne
  | updateByID
  | updateMany
  | deleteOne
  | deleteMany
deriving DecidableEq

/-- Every error the facade can ever return, one constructor per
`fmt.Errorf` call site in `repo.go`, carrying exactly the data that call
wraps or formats:

* `...Wrap cause` sites of shape `"%w: %w"` wrap the sentinel and the
  collaborator error `cause`;
* `findOneDecode`/`findDecode`/`findStreamDecode` are the
  `"%w: failed to decode result(s): %w"` sites;
* `findStreamCursor` is `"%w: cursor ended with errors: %w"`;
* `insertOneConvert`/`insertManyConvert` are the
  `"%w: failed to convert inserted ID to (type) %T"` sites — the only
  datum formatted besides the sentinel is the expected type `%T` of the
  zero value of `I`;
* `update...Convert actual expected` are the
  `"%w: failed to convert updated ID (type %T) to type %T"` sites,
  formatting the actual dynamic type of `result.UpsertedID` and the
  expected type of `I`, in that order. -/
inductive RepoErr (E : Type) where
  | findOneWrap (cause : E)
  | findOneDecode (cause : E)
  | findWrap (cause : E)
  | findDecode (cause : E)
  | findStreamWrap (cause : E)
  | findStreamDecode (cause : E)
  | findStreamCursor (cause : E)
  | insertOneWrap (cause : E)
  | insertOneConvert (expected : TypeDesc)
  | insertManyWrap (cause : E)
  | insertManyConvert (expected : TypeDesc)
  | updateByIDWrap (cause : E)
  | updateByIDConvert (actual expected : TypeDesc)
  | updateOneWrap (cause : E)
  | updateOneConvert (actual expected : TypeDesc)
  | updateManyWrap (cause : E)
  | updateManyConvert (actual expected : TypeDesc)
  | deleteOneWrap (cause : E)
  | deleteManyWrap (cause : E)

/-- The sentinel (`%w`-wrapped operation marker) of an error: which
`errors.Is` match succeeds on it. -/
def RepoErr.marker {E : Type} : RepoErr E → Marker
  | .findOneWrap _ => .findOne
  | .findOneDecode _ => .findOne
  | .findWrap _ => .find
  | .findDecode _ => .find
  | .findStreamWrap _ => .findStream
  | .findStreamDecode _ => .findStream
  | .findStreamCursor _ => .findStream
  | .insertOneWrap _ => .insertOne
  | .insertOneConvert _ => .insertOne
  | .insertManyWrap _ => .insertMany
  | .insertManyConvert _ => .insertMany
  | .updateByIDWrap _ => .updateByID
  | .updateByIDConvert _ _ => .updateByID
  | .updateOneWrap _ => .updateOne
  | .updateOneConvert _ _ => .updateOne
  | .updateManyWrap _ => .updateMany
  | .updateManyConvert _ _ => .updateMany
  | .deleteOneWrap _ => .deleteOne
  | .deleteManyWrap _ => .deleteMany

/-- The underlying collaborator error wrapped inside a facade error (the
second `%w`), when the failure originated in the collaborator; `none` for
the identifier-conversion errors, which originate in the facade itself. -/
def RepoErr.cause {E : Type} : RepoErr E → Option E
  | .findOneWrap e => some e
  | .findOneDecode e => some e
  | .findWrap e => some e
  | .findDecode e => some e
  | .findStreamWrap e => some e
  | .findStreamDecode e => some e
  | .findStreamCursor e => some e
  | .insertOneWrap e => some e
  | .insertManyWrap e => some e
  | .updateByIDWrap e => some e
  | .updateOneWrap e => some e
  | .updateManyWrap e => some e
  | .insertOneConvert _ => none
  | .insertManyConvert _ => none
  | .updateByIDConvert _ _ => none
  | .updateOneConvert _ _ => none
  | .updateManyConvert _ _ => none
  | .deleteOneWrap e => some e
  | .deleteManyWrap e => some e

/-- The expected-type description carried by an identifier-type-mismatch
error (the `%T` of the zero value of `I` in the message), `none` for every
other error. -/
def RepoErr.mismatchExpected {E : Type} : RepoErr E → Option TypeDesc
  | .insertOneConvert expected => some expected
  | .insertManyConvert expected => some expected
  | .updateByIDConvert _ expected => some expected
  | .updateOneConvert _ expected => some expected
  | .updateManyConvert _ expected => some expected
  | _ => none

/-- The actual-type description carried by an identifier-type-mismatch
error (the `%T` of the offending dynamic value in the message), `none`
when the message does not format it. -/
def RepoErr.mismatchActual {E : Type} : RepoErr E → Option TypeDesc
  | .updateByIDConvert actual _ => some actual
  | .updateOneConvert actual _ => some actual
  | .updateManyConvert actual _ => some actual
  | _ => none

/-- Whether an error is one of the identifier-type-mismatch errors. -/
def RepoErr.isMismatch {E : Type} : RepoErr E → Bool
  | .insertOneConvert _ => true
  | .insertManyConvert _ => true
  | .updateByIDConvert _ _ => true
  | .updateOneConvert _ _ => true
  | .updateManyConvert _ _ => true
  | _ => false

/-- The collaborator's `mongo.SingleResult` as `FindOne` consumes it:
`err` is what `result.Err()` reports, `decode` the outcome of
`result.Decode(&value)`. -/
structure SingleResult (M E : Type) where
  err : Option E
  decode : Except E M

/-- `Repository.FindOne` (repo.go lines 42–65): if `result.Err()` is
non-nil, wrap it under `ErrFindOne`; otherwise decode, wrapping a decode
failure under `ErrFindOne` as well; otherwise return the value. -/
def FindOne {M E : Type} (result : SingleResult M E) : Except (RepoErr E) M :=
  match result.err with
  | some e => .error (.findOneWrap e)
  | none =>
    match result.decode with
    | .error e => .error (.findOneDecode e)
    | .ok v => .ok v

/-- The collaborator cursor as the eager `Find` consumes it: `allOutcome`
is the result of `cursor.All(ctx, &values)` — either a decode/iteration
error or the fully materialized list of models. -/
structure FindCursor (M E : Type) where
  allOutcome : Except E (List M)

/-- `Repository.Find` (repo.go lines 67–88): a failed query wraps under
`ErrFind`; a failed `cursor.All` wraps under `ErrFind` as a decode
failure; otherwise the materialized values are returned. -/
def Find {M E : Type} (query : Except E (FindCursor M E)) :
    Except (RepoErr E) (List M) :=
  match query with
  | .error e => .error (.findWrap e)
  | .ok cursor =>
    match cursor.allOutcome with
    | .error e => .error (.findDecode e)
    | .ok values => .ok values

/-- A Go channel as produced by `make`: the only property of the channel
value itself that the embedding tracks is its buffer capacity.
`make(chan T)` with no capacity argument creates a channel of capacity 0. -/
structure GoChan (α : Type) where
  capacity : Nat

/-- `make(chan α)` — no capacity argument, so capacity 0. -/
def makeChan (α : Type) : GoChan α := ⟨0⟩

/-- A send on a Go channel completes without a waiting receiver only by
parking the value in the buffer, which requires the number of already
queued items to be below the capacity.  On a capacity-0 channel this is
never possible: every send is a rendezvous with a receive. -/
def GoChan.sendCompletesWithoutReceiver {α : Type} (c : GoChan α) (queued : Nat) : Prop :=
  queued < c.capacity

/-- One observable action of the `FindStream` background goroutine, in
program order: a completed send on the value channel, a completed send on
the error channel, or the close of one of the two channels.  The two
deferred closes run in LIFO order, so `closeErrors` (deferred second)
precedes `closeValues`. -/
inductive StreamEvent (M E : Type) where
  | value (v : M)
  | errorMsg (e : RepoErr E)
  | closeErrors
  | closeValues

/-- The collaborator cursor as the streaming path consumes it: `items`
are the successive positions for which `cursor.Next(ctx)` returns true,
each paired with the outcome of `cursor.Decode(&value)` there; once the
list is exhausted `Next` returns false, and `cursor.Err()` then reports
`finalErr`. -/
structure StreamCursor (M E : Type) where
  items : List (Except E M)
  finalErr : Option E

/-- Whether, at the poll performed at iteration `iter` of the drain loop,
the `select`'s `case <-cancel` is ready.  The caller's one-time
`close(cancel)` is abstracted by the index `cancelAt` of the first poll
that can observe it (`none`: the cancel channel is never closed); a closed
channel stays closed, so every later poll observes it too.  When the
receive is ready Go's `select` must take it — the `default` branch fires
only when no communication case is ready — so the poll outcome is
deterministic. -/
def cancelSeen (cancelAt : Option Nat) (iter : Nat) : Bool :=
  match cancelAt with
  | none => false
  | some n => n ≤ iter

/-- The event a loop iteration produces from the item under the cursor:
a decode failure sends a `findStreamDecode`-wrapped error on the error
channel and the loop continues (`continue`); a decoded value is sent on
the value channel. -/
def streamItemEvent {M E : Type} : Except E M → StreamEvent M E
  | .error e => .errorMsg (.findStreamDecode e)
  | .ok v => .value v

/-- The `mainLoop` of the `FindStream` goroutine (repo.go lines 116–135):
at each iteration, first poll the cancel channel (stop if closed), then
advance the cursor (stop when `Next` returns false), then decode and emit.
When the cursor is exhausted the loop stops whether or not cancellation
was also observed, so the empty-cursor case is a single equation. -/
def drainLoop {M E : Type} (cancelAt : Option Nat) :
    Nat → List (Except E M) → List (StreamEvent M E)
  | _, [] => []
  | iter, item :: rest =>
    if cancelSeen cancelAt iter then []
    else streamItemEvent item :: drainLoop cancelAt (iter + 1) rest

/-- The final cursor-error check after `mainLoop` (repo.go lines 137–139):
if `cursor.Err()` is non-nil, one `findStreamCursor`-wrapped error is sent
on the error channel. -/
def cursorErrEvents {M E : Type} : Option E → List (StreamEvent M E)
  | some e => [.errorMsg (.findStreamCursor e)]
  | none => []

/-- The complete event trace of one run of the `FindStream` background
goroutine (repo.go lines 112–140), as a function of the cursor contents
and of the cancellation point: the drain loop, then the final cursor-error
check, then the two deferred closes in LIFO order. -/
def streamTaskTrace {M E : Type} (c : StreamCursor M E) (cancelAt : Option Nat) :
    List (StreamEvent M E) :=
  drainLoop cancelAt 0 c.items ++ cursorErrEvents c.finalErr ++
    [.closeErrors, .closeValues]

/-- The full return value of `FindStream` (repo.go lines 94–143):
`(chan M, chan error, chan struct{}, error)`, with nil channels embedded
as `none`, plus the spawned background goroutine represented by its trace
function (`none` when no goroutine was started). -/
structure FindStreamReturn (M E : Type) where
  values : Option (GoChan M)
  errors : Option (GoChan (RepoErr E))
  cancel : Option (GoChan Unit)
  err : Option (RepoErr E)
  task : Option (Option Nat → List (StreamEvent M E))

/-- `Repository.FindStream` (repo.go lines 94–143): a failed query returns
`nil, nil, nil` and an `ErrFindStream`-wrapped error, spawning nothing;
otherwise three fresh unbuffered channels are returned with a nil error
and one background draining goroutine is started on the cursor. -/
def FindStream {M E : Type} (query : Except E (StreamCursor M E)) :
    FindStreamReturn M E :=
  match query with
  | .error e =>
    { values := none, errors := none, cancel := none,
      err := some (.findStreamWrap e), task := none }
  | .ok cursor =>
    { values := some (makeChan M), errors := some (makeChan (RepoErr E)),
      cancel := some (makeChan Unit), err := none,
      task := some (streamTaskTrace cursor) }

/-- The collaborator's `mongo.InsertOneResult`: the store-assigned
identifier, dynamically typed. -/
structure InsertOneResult (I : Type) where
  insertedID : DynID I

/-- `Repository.InsertOne` (repo.go lines 145–168): a write failure wraps
under `ErrInsertOne`; the type assertion `result.InsertedID.(I)` either
yields the typed identifier or fails with a conversion error formatting
only the expected type `iDesc` (the `%T` of the zero value of `I`). -/
def InsertOne {I E : Type} (iDesc : TypeDesc)
    (outcome : Except E (InsertOneResult I)) : Except (RepoErr E) I :=
  match outcome with
  | .error e => .error (.insertOneWrap e)
  | .ok result =>
    match result.insertedID with
    | .typed v => .ok v
    | .foreign _ => .error (.insertOneConvert iDesc)

/-- The collaborator's `mongo.InsertManyResult`: the store-assigned
identifiers in input-document order, each dynamically typed. -/
structure InsertManyResult (I : Type) where
  insertedIDs : List (DynID I)

/-- The conversion loop of `InsertMany` (repo.go lines 189–197): assert
each identifier in order; the first failure abandons the loop (the partial
output array is discarded), otherwise all converted identifiers are kept
at their positions. -/
def convertInsertedIDs {I : Type} : List (DynID I) → Option (List I)
  | [] => some []
  | .typed v :: rest => (convertInsertedIDs rest).map (v :: ·)
  | .foreign _ :: _ => none

/-- `Repository.InsertMany` (repo.go lines 170–200): a write failure wraps
under `ErrInsertMany`; any identifier failing the type assertion fails the
whole call with a conversion error formatting only the expected type
`iDesc`, and a nil slice; otherwise the converted identifiers are returned
in store order. -/
def InsertMany {I E : Type} (iDesc : TypeDesc)
    (outcome : Except E (InsertManyResult I)) : Except (RepoErr E) (List I) :=
  match outcome with
  | .error e => .error (.insertManyWrap e)
  | .ok result =>
    match convertInsertedIDs result.insertedIDs with
    | some ids => .ok ids
    | none => .error (.insertManyConvert iDesc)

/-- The collaborator's `mongo.UpdateResult`: three `int64` counts and the
`UpsertedID any` field, which is nil (`none`) when no upsert occurred. -/
structure MongoUpdateResult (I : Type) where
  matchedCount : Int
  modifiedCount : Int
  upsertedCount : Int
  upsertedID : Option (DynID I)

/-- The facade's generic `UpdateResult[I]` (repo.go lines 341–346).  The
`UpsertedID *I` pointer field is embedded as `Option I`: `none` is the nil
pointer.  Its doc comment reads: "The _id field of the upserted document,
or nil if no upsert was done." -/
structure UpdateResult (I : Type) where
  matchedCount : Int
  modifiedCount : Int
  upsertedCount : Int
  upsertedID : Option I

/-- The shared tail of the three update operations (repo.go, e.g. lines
253–268 for `UpdateOne`): `var updatedID I` starts at the zero value
`zeroI`; when `result.UpsertedID` is non-nil it must type-assert to `I`,
else the call fails with a conversion error formatting the actual dynamic
type and the expected type; the returned struct always carries the
address `&updatedID` — a non-nil pointer, i.e. `some` — whether or not an
upsert occurred.  `mk` builds the operation's conversion error. -/
def updateResultOf {I E : Type} (zeroI : I) (iDesc : TypeDesc)
    (mk : TypeDesc → TypeDesc → RepoErr E) (result : MongoUpdateResult I) :
    Except (RepoErr E) (UpdateResult I) :=
  match result.upsertedID with
  | none =>
    .ok ⟨result.matchedCount, result.modifiedCount, result.upsertedCount,
      some zeroI⟩
  | some (.typed v) =>
    .ok ⟨result.matchedCount, result.modifiedCount, result.upsertedCount,
      some v⟩
  | some (.foreign actual) => .error (mk actual iDesc)

/-- `Repository.UpdateByID` (repo.go lines 202–234): a write failure wraps
under `ErrUpdateByID`; otherwise the driver result is mapped into
`UpdateResult[I]` as in `updateResultOf`.  The `id` argument is passed
through to the driver and does not influence the mapping. -/
def UpdateByID {I E : Type} (zeroI : I) (_id : I) (iDesc : TypeDesc)
    (outcome : Except E (MongoUpdateResult I)) :
    Except (RepoErr E) (UpdateResult I) :=
  match outcome with
  | .error e => .error (.updateByIDWrap e)
  | .ok result => updateResultOf zeroI iDesc RepoErr.updateByIDConvert result

/-- `Repository.UpdateOne` (repo.go lines 236–269): a write failure wraps
under `ErrUpdateOne`; otherwise the driver result is mapped into
`UpdateResult[I]` as in `updateResultOf`. -/
def UpdateOne {I E : Type} (zeroI : I) (iDesc : TypeDesc)
    (outcome : Except E (MongoUpdateResult I)) :
    Except (RepoErr E) (UpdateResult I) :=
  match outcome with
  | .error e => .error (.updateOneWrap e)
  | .ok result => updateResultOf zeroI iDesc RepoErr.updateOneConvert result

/-- `Repository.UpdateMany` (repo.go lines 271–304): a write failure wraps
under `ErrUpdateMany`; otherwise the driver result is mapped into
`UpdateResult[I]` as in `updateResultOf`. -/
def UpdateMany {I E : Type} (zeroI : I) (iDesc : TypeDesc)
    (outcome : Except E (MongoUpdateResult I)) :
    Except (RepoErr E) (UpdateResult I) :=
  match outcome with
  | .error e => .error (.updateManyWrap e)
  | .ok result => updateResultOf zeroI iDesc RepoErr.updateManyConvert result

/-- The collaborator's `mongo.DeleteResult` (counts only). -/
structure DeleteResult where
  deletedCount : Int

/-- `Repository.DeleteOne` (repo.go lines 306–321): pass-through of the
driver result; a failure wraps under `ErrDeleteOne`. -/
def DeleteOne {E : Type} (outcome : Except E DeleteResult) :
    Except (RepoErr E) DeleteResult :=
  match outcome with
  | .error e => .error (.deleteOneWrap e)
  | .ok result => .ok result

/-- `Repository.DeleteMany` (repo.go lines 323–338): pass-through of the
driver result; a failure wraps under `ErrDeleteMany`. -/
def DeleteMany {E : Type} (outcome : Except E DeleteResult) :
    Except (RepoErr E) DeleteResult :=
  match outcome with
  | .error e => .error (.deleteManyWrap e)
  | .ok result => .ok result

/-- A Go runtime panic, as raised by dereferencing a nil receiver. -/
inductive GoPanic where
  | nilDereference
deriving DecidableEq

/-- The `Model` capability contract as exercised by `NewRepository`: the
behaviour of `GetDatabaseName` and `GetCollectionName` when invoked on the
zero value of `M` (`var v M`).  When `M` is a pointer type that zero value
is a nil receiver, and a method body that dereferences its receiver panics
— embedded as `Except GoPanic`; a method that never touches its receiver
returns its string. -/
structure ModelContract where
  getDatabaseNameOnZero : Except GoPanic String
  getCollectionNameOnZero : Except GoPanic String

/-- The constructed repository: the namespace/collection pair resolved
once at construction (`repo.go` lines 24–28; the client handle is opaque
to the embedding). -/
structure Repository where
  databaseName : String
  collectionName : String

/-- `NewRepository` (repo.go lines 33–40): declare `var v M` (the zero
value) and invoke `v.GetDatabaseName()` then `v.GetCollectionName()` to
populate the struct; a panic in either method propagates and construction
does not complete. -/
def NewRepository (m : ModelContract) : Except GoPanic Repository := do
  let db ← m.getDatabaseNameOnZero
  let col ← m.getCollectionNameOnZero
  pure ⟨db, col⟩

/-- Boolean discriminator for value-channel send events. -/
def StreamEvent.isValue {M E : Type} : StreamEvent M E → Bool
  | .value _ => true
  | _ => false

/-- Boolean discriminator for the `closeValues` event. -/
def StreamEvent.isCloseValues {M E : Type} : StreamEvent M E → Bool
  | .closeValues => true
  | _ => false

/-- Boolean discriminator for the `closeErrors` event. -/
def StreamEvent.isCloseErrors {M E : Type} : StreamEvent M E → Bool
  | .closeErrors => true
  | _ => false

/-- Boolean discriminator for final cursor-level error events. -/
def StreamEvent.isCursorError {M E : Type} : StreamEvent M E → Bool
  | .errorMsg (.findStreamCursor _) => true
  | _ => false

/-- Number of completed value-channel sends in a trace. -/
def countValues {M E : Type} (tr : List (StreamEvent M E)) : Nat :=
  tr.countP (fun ev => StreamEvent.isValue ev)

/-! Helper lemmas about the drain loop. -/

/-- With the cancel channel never closed, the drain loop emits exactly one
event per cursor item, in cursor order. -/
theorem drainLoop_none_eq_map {M E : Type} (items : List (Except E M)) (iter : Nat) :
    drainLoop none iter items = items.map streamItemEvent := by
  induction items generalizing iter with
  | nil => rfl
  | cons item rest ih => simp [drainLoop, cancelSeen, ih]

/-- With the cancel channel closed so that poll number `n` first observes
it, the drain loop processes exactly the first `n - iter` remaining items. -/
theorem drainLoop_some_eq_take {M E : Type} (n : Nat) (items : List (Except E M))
    (iter : Nat) :
    drainLoop (some n) iter items = (items.take (n - iter)).map streamItemEvent := by
  induction items generalizing iter with
  | nil => simp [drainLoop]
  | cons item rest ih =>
    by_cases h : n ≤ iter
    · have hz : n - iter = 0 := Nat.sub_eq_zero_of_le h
      simp [drainLoop, cancelSeen, h, hz]
    · have hs : n - iter = (n - (iter + 1)) + 1 := by omega
      rw [hs, List.take_succ_cons]
      simp [drainLoop, cancelSeen, h, ih]

/-- The drain loop emits only item events (values and decode errors): any
predicate false on every item event counts zero occurrences in it. -/
theorem countP_drainLoop_eq_zero {M E : Type} (p : StreamEvent M E → Bool)
    (h : ∀ item : Except E M, p (streamItemEvent item) = false)
    (cancelAt : Option Nat) (iter : Nat) (items : List (Except E M)) :
    (drainLoop cancelAt iter items).countP p = 0 := by
  induction items generalizing iter with
  | nil => rfl
  | cons item rest ih =>
    by_cases hc : cancelSeen cancelAt iter
    · simp [drainLoop, hc]
    · simp [drainLoop, hc, List.countP_cons, h, ih]

/-- No item event is a close of the value channel. -/
theorem isCloseValues_streamItemEvent {M E : Type} (item : Except E M) :
    StreamEvent.isCloseValues (streamItemEvent item) = false := by
  cases item <;> rfl

/-- No item event is a close of the error channel. -/
theorem isCloseErrors_streamItemEvent {M E : Type} (item : Except E M) :
    StreamEvent.isCloseErrors (streamItemEvent item) = false := by
  cases item <;> rfl

/-- No item event is a final cursor-level error event. -/
theorem isCursorError_streamItemEvent {M E : Type} (item : Except E M) :
    StreamEvent.isCursorError (streamItemEvent item) = false := by
  cases item <;> rfl

/-- Claim C1: for every invocation of FindStream whose initial query
succeeds, whatever the cursor contents and whenever (if ever) the caller
closes the cancel channel, the background task's trace closes the value
channel exactly once and the error channel exactly once, and the trace
decomposes as a body (the drain loop's events followed by any final
cursor-level error) containing no close event, followed by the two closes
as the very last steps. -/
theorem findStream_closes_each_channel_once_last {M E : Type}
    (c : StreamCursor M E) (cancelAt : Option Nat) :
    (streamTaskTrace c cancelAt).countP
        (fun ev => StreamEvent.isCloseValues ev) = 1 ∧
    (streamTaskTrace c cancelAt).countP
        (fun ev => StreamEvent.isCloseErrors ev) = 1 ∧
    ∃ body, streamTaskTrace c cancelAt =
        body ++ [StreamEvent.closeErrors, StreamEvent.closeValues] ∧
      body.countP (fun ev => StreamEvent.isCloseValues ev) = 0 ∧
      body.countP (fun ev => StreamEvent.isCloseErrors ev) = 0 := by
  have hdv := countP_drainLoop_eq_zero (fun ev => StreamEvent.isCloseValues ev)
    isCloseValues_streamItemEvent cancelAt 0 c.items
  have hde := countP_drainLoop_eq_zero (fun ev => StreamEvent.isCloseErrors ev)
    isCloseErrors_streamItemEvent cancelAt 0 c.items
  have hcv : (cursorErrEvents (M := M) c.finalErr).countP
      (fun ev => StreamEvent.isCloseValues ev) = 0 := by
    cases c.finalErr <;> simp [cursorErrEvents, StreamEvent.isCloseValues]
  have hce : (cursorErrEvents (M := M) c.finalErr).countP
      (fun ev => StreamEvent.isCloseErrors ev) = 0 := by
    cases c.finalErr <;> simp [cursorErrEvents, StreamEvent.isCloseErrors]
  have hclv : List.countP (fun ev => StreamEvent.isCloseValues ev)
      ([StreamEvent.closeErrors, StreamEvent.closeValues] :
        List (StreamEvent M E)) = 1 := rfl
  have hcle : List.countP (fun ev => StreamEvent.isCloseErrors ev)
      ([StreamEvent.closeErrors, StreamEvent.closeValues] :
        List (StreamEvent M E)) = 1 := rfl
  refine ⟨?_, ?_, drainLoop cancelAt 0 c.items ++ cursorErrEvents c.finalErr,
    by simp [streamTaskTrace], ?_, ?_⟩
  · rw [streamTaskTrace, List.countP_append, List.countP_append, hdv, hcv, hclv]
  · rw [streamTaskTrace, List.countP_append, List.countP_append, hde, hce, hcle]
  · rw [List.countP_append, hdv, hcv]
  · rw [List.countP_append, hde, hce]

/-- Claim C3: in a FindStream draining run that is never cancelled, every
cursor item produces exactly one event — a `findStreamDecode`-wrapped
error-channel send for a failed decode (after which the loop continues
with the next item), a value-channel send for a successful decode — and
the loop stops exactly when the cursor stops producing items; moreover,
for any cancellation point, the trace contains exactly one final
cursor-level error when the cursor ended in an error state and none
otherwise, emitted before the two channel closes. -/
theorem findStream_decode_nonfatal_cursor_fatal {M E : Type}
    (c : StreamCursor M E) :
    streamTaskTrace c none =
      c.items.map streamItemEvent ++ cursorErrEvents c.finalErr ++
        [StreamEvent.closeErrors, StreamEvent.closeValues] ∧
    (∀ e : E, streamItemEvent (M := M) (Except.error e) =
      StreamEvent.errorMsg (RepoErr.findStreamDecode e)) ∧
    (∀ v : M, streamItemEvent (E := E) (Except.ok v) = StreamEvent.value v) ∧
    ∀ cancelAt, (streamTaskTrace c cancelAt).countP
        (fun ev => StreamEvent.isCursorError ev) =
      if c.finalErr.isSome then 1 else 0 := by
  refine ⟨by simp [streamTaskTrace, drainLoop_none_eq_map],
    fun e => rfl, fun v => rfl, fun cancelAt => ?_⟩
  have hd := countP_drainLoop_eq_zero (fun ev => StreamEvent.isCursorError ev)
    isCursorError_streamItemEvent cancelAt 0 c.items
  have hc : (cursorErrEvents (M := M) c.finalErr).countP
      (fun ev => StreamEvent.isCursorError ev) =
      if c.finalErr.isSome then 1 else 0 := by
    cases c.finalErr <;> simp [cursorErrEvents, StreamEvent.isCursorError]
  have hcl : List.countP (fun ev => StreamEvent.isCursorError ev)
      ([StreamEvent.closeErrors, StreamEvent.closeValues] :
        List (StreamEvent M E)) = 0 := rfl
  rw [streamTaskTrace, List.countP_append, List.countP_append, hd, hc, hcl]
  simp

/-- Claim C4: the drain loop polls the cancel channel before every cursor
advance, so once the closed cancel channel is observable the loop emits
nothing further; a close that lands during iteration `j`'s decode-and-emit
cycle (first observable at poll `j + 1`) lets the loop process exactly the
first `j + 1` items, so at most one value beyond those of the iterations
fully preceding the signal is emitted. -/
theorem findStream_cancellation_within_one_cycle {M E : Type}
    (items : List (Except E M)) (j : Nat) :
    (∀ n iter, n ≤ iter →
      drainLoop (M := M) (E := E) (some n) iter items = []) ∧
    drainLoop (some (j + 1)) 0 items =
      (items.take (j + 1)).map streamItemEvent ∧
    countValues (drainLoop (some (j + 1)) 0 items) ≤
      countValues ((items.take j).map streamItemEvent) + 1 := by
  refine ⟨fun n iter hle => ?_, ?_, ?_⟩
  · cases items with
    | nil => rfl
    | cons item rest => simp [drainLoop, cancelSeen, hle]
  · simpa using drainLoop_some_eq_take (j + 1) items 0
  · have htake := drainLoop_some_eq_take (M := M) (E := E) (j + 1) items 0
    simp only [Nat.sub_zero] at htake
    rw [htake, List.take_succ, List.map_append]
    unfold countValues
    rw [List.countP_append]
    have hlen : (items[j]?.toList.map streamItemEvent).countP
        (fun ev => StreamEvent.isValue ev) ≤ 1 := by
      calc (items[j]?.toList.map streamItemEvent).countP
            (fun ev => StreamEvent.isValue ev)
          ≤ (items[j]?.toList.map streamItemEvent).length :=
            List.countP_le_length _
        _ ≤ 1 := by cases items[j]? <;> simp
    omega

/-- Claim C4 witness: concrete instances — a loop whose first poll already
observes the closed cancel channel emits nothing, and with three decodable
documents and the close landing during the first iteration, at most one
value beyond those of the preceding iterations is emitted. -/
theorem findStream_cancellation_within_one_cycle_witness :
    drainLoop (M := Nat) (E := Unit) (some 1) 1 [Except.ok 5] = [] ∧
    countValues (drainLoop (M := Nat) (E := Unit) (some 1) 0
        [Except.ok 1, Except.ok 2, Except.ok 3]) ≤
      countValues (([Except.ok 1, Except.ok 2,
        Except.ok 3].take 0).map (streamItemEvent (M := Nat) (E := Unit))) + 1 :=
  ⟨(findStream_cancellation_within_one_cycle [Except.ok 5] 0).1 1 1
      (Nat.le_refl 1),
    (findStream_cancellation_within_one_cycle
      [Except.ok 1, Except.ok 2, Except.ok 3] 0).2.2⟩

/-- Claim C8: on a successful query, the value and error channels returned
by FindStream are the channels created by capacity-less `make`, of
capacity zero: no send on either can complete without a waiting receiver,
whatever the number of queued items — every emission is a rendezvous. -/
theorem findStream_channels_unbuffered {M E : Type} (c : StreamCursor M E) :
    (FindStream (Except.ok c)).values = some (makeChan M) ∧
    (FindStream (Except.ok c)).errors = some (makeChan (RepoErr E)) ∧
    (makeChan M).capacity = 0 ∧
    (makeChan (RepoErr E)).capacity = 0 ∧
    (∀ queued, ¬ (makeChan M).sendCompletesWithoutReceiver queued) ∧
    (∀ queued, ¬ (makeChan (RepoErr E)).sendCompletesWithoutReceiver queued) := by
  refine ⟨rfl, rfl, rfl, rfl, fun queued h => ?_, fun queued h => ?_⟩ <;>
    simp [makeChan, GoChan.sendCompletesWithoutReceiver] at h

/-- Claim C8 witness: evaluated at a concrete empty cursor. -/
theorem findStream_channels_unbuffered_witness :
    (FindStream (M := Nat) (E := Unit)
        (Except.ok ⟨[], none⟩)).values = some (makeChan Nat) ∧
    (makeChan Nat).capacity = 0 :=
  ⟨(findStream_channels_unbuffered ⟨[], none⟩).1,
    (findStream_channels_unbuffered (M := Nat) (E := Unit)
      ⟨[], none⟩).2.2.1⟩

/-- Claim C9: FindStream returns nil for all three channels together with
an `ErrFindStream`-wrapped error, and spawns no background task, exactly
when the initial query fails; on success all three channels are non-nil,
the error is nil, and the draining task is started — each channel is
non-nil precisely when the returned error is nil. -/
theorem findStream_nil_channels_iff_initial_error {M E : Type}
    (query : Except E (StreamCursor M E)) :
    ((FindStream query).err = none ↔ (FindStream query).values.isSome = true) ∧
    ((FindStream query).err = none ↔ (FindStream query).errors.isSome = true) ∧
    ((FindStream query).err = none ↔ (FindStream query).cancel.isSome = true) ∧
    ((FindStream query).err = none ↔ (FindStream query).task.isSome = true) ∧
    (∀ e, query = Except.error e →
      FindStream query = ⟨none, none, none,
        some (RepoErr.findStreamWrap e), none⟩) ∧
    (∀ c, query = Except.ok c →
      FindStream query = ⟨some (makeChan M), some (makeChan (RepoErr E)),
        some (makeChan Unit), none, some (streamTaskTrace c)⟩) := by
  cases query with
  | error e =>
    refine ⟨by simp [FindStream], by simp [FindStream],
      by simp [FindStream], by simp [FindStream], ?_, ?_⟩
    · intro x hx
      injection hx with h
      subst h
      rfl
    · intro c hc
      exact Except.noConfusion hc
  | ok c =>
    refine ⟨by simp [FindStream], by simp [FindStream],
      by simp [FindStream], by simp [FindStream], ?_, ?_⟩
    · intro x hx
      exact Except.noConfusion hx
    · intro c2 hc
      injection hc with h
      subst h
      rfl

/-- Claim C9 witness: evaluated at a concrete failed query and a concrete
successful query. -/
theorem findStream_nil_channels_iff_initial_error_witness :
    FindStream (M := Nat) (E := Unit) (Except.error ()) =
      ⟨none, none, none, some (RepoErr.findStreamWrap ()), none⟩ ∧
    FindStream (M := Nat) (E := Unit) (Except.ok ⟨[], none⟩) =
      ⟨some (makeChan Nat), some (makeChan (RepoErr Unit)),
        some (makeChan Unit), none, some (streamTaskTrace ⟨[], none⟩)⟩ :=
  ⟨(findStream_nil_channels_iff_initial_error
      (M := Nat) (Except.error ())).2.2.2.2.1 () rfl,
    (findStream_nil_channels_iff_initial_error
      (M := Nat) (Except.ok ⟨[], none⟩)).2.2.2.2.2 ⟨[], none⟩ rfl⟩

/-! Helper lemmas about the `InsertMany` identifier-conversion loop. -/

/-- The conversion loop applied to a list of well-typed identifiers
succeeds and returns their payloads in order. -/
theorem convertInsertedIDs_map_typed {I : Type} (ids : List I) :
    convertInsertedIDs (ids.map DynID.typed) = some ids := by
  induction ids with
  | nil => rfl
  | cons v tl ih => simp [convertInsertedIDs, ih]

/-- A successful conversion means every input identifier was well typed,
with the outputs being their payloads at the same positions. -/
theorem convertInsertedIDs_eq_some_imp {I : Type} :
    ∀ (dyns : List (DynID I)) (ids : List I),
    convertInsertedIDs dyns = some ids → dyns = ids.map DynID.typed := by
  intro dyns
  induction dyns with
  | nil =>
    intro ids h
    simp only [convertInsertedIDs, Option.some.injEq] at h
    subst h
    rfl
  | cons d rest ih =>
    intro ids h
    cases d with
    | typed v =>
      rcases hconv : convertInsertedIDs rest with _ | converted
      · simp [convertInsertedIDs, hconv] at h
      · simp only [convertInsertedIDs, hconv, Option.map_some',
          Option.some.injEq] at h
        subst h
        simp only [List.map_cons]
        exact congrArg (DynID.typed v :: ·) (ih converted hconv)
    | foreign s => simp [convertInsertedIDs] at h

/-- The conversion loop succeeds exactly on lists in which every
identifier has the caller's type, and then returns their payloads at the
same positions. -/
theorem convertInsertedIDs_eq_some_iff {I : Type} (dyns : List (DynID I))
    (ids : List I) :
    convertInsertedIDs dyns = some ids ↔ dyns = ids.map DynID.typed :=
  ⟨convertInsertedIDs_eq_some_imp dyns ids,
    fun h => h ▸ convertInsertedIDs_map_typed ids⟩

/-- The conversion loop fails as soon as any identifier is of a foreign
dynamic type. -/
theorem convertInsertedIDs_eq_none_of_foreign {I : Type}
    (dyns : List (DynID I)) (s : TypeDesc) (hmem : DynID.foreign s ∈ dyns) :
    convertInsertedIDs dyns = none := by
  induction dyns with
  | nil => cases hmem
  | cons d rest ih =>
    cases d with
    | typed v =>
      have hrest : DynID.foreign s ∈ rest := by
        cases hmem with
        | tail _ h => exact h
      simp [convertInsertedIDs, ih hrest]
    | foreign t => rfl

/-- Claim C2 (the code contradicts it): a successful `UpdateOne`,
`UpdateByID` or `UpdateMany` in which the driver reports no upsert
(`UpsertedID` nil) returns an `UpdateResult` whose `UpsertedID` pointer is
`&updatedID` — a non-nil pointer to the zero value of `I` (`some 0` here,
not `none`), although the field's own doc comment promises nil when no
upsert was done. -/
theorem update_no_upsert_returns_nonnil_zero_pointer :
    UpdateOne (I := Int) (E := Unit) 0 "int" (Except.ok ⟨1, 1, 0, none⟩) =
      Except.ok ⟨1, 1, 0, some 0⟩ ∧
    UpdateByID (I := Int) (E := Unit) 0 7 "int" (Except.ok ⟨1, 1, 0, none⟩) =
      Except.ok ⟨1, 1, 0, some 0⟩ ∧
    UpdateMany (I := Int) (E := Unit) 0 "int" (Except.ok ⟨3, 2, 0, none⟩) =
      Except.ok ⟨3, 2, 0, some 0⟩ ∧
    some (0 : Int) ≠ (none : Option Int) := by
  refine ⟨rfl, rfl, rfl, by simp⟩

/-- Claim C5 counterexample: an `InsertOne` whose store-returned
identifier fails the conversion to `I` returns a mismatch error that
formats only the expected type description — the actual type description
of the offending value is absent from it, contradicting the claim that
both are carried by every such error. -/
theorem insertOne_mismatch_lacks_actual_type :
    InsertOne (I := Int) (E := Unit) "primitive.ObjectID"
        (Except.ok ⟨DynID.foreign "string"⟩) =
      Except.error (RepoErr.insertOneConvert "primitive.ObjectID") ∧
    (RepoErr.insertOneConvert (E := Unit) "primitive.ObjectID").isMismatch =
      true ∧
    (RepoErr.insertOneConvert (E := Unit) "primitive.ObjectID").mismatchActual =
      none := by
  refine ⟨rfl, rfl, rfl⟩

/-- Claim C5 as amended: every identifier-type-mismatch error carries the
expected type description, but only the update operations' mismatch errors
(`UpdateOne`, `UpdateByID`, `UpdateMany`) additionally carry the actual
type description of the offending value; the insert operations'
(`InsertOne`, `InsertMany`) mismatch errors carry the expected type
description only. -/
theorem mismatch_error_type_descriptions {I E : Type} (zeroI idArg : I)
    (iDesc actual : TypeDesc) (m mo up : Int) (dyns : List (DynID I)) :
    (InsertOne (I := I) (E := E) iDesc (Except.ok ⟨DynID.foreign actual⟩) =
      Except.error (RepoErr.insertOneConvert iDesc)) ∧
    ((∃ s, DynID.foreign s ∈ dyns) →
      InsertMany (E := E) iDesc (Except.ok ⟨dyns⟩) =
        Except.error (RepoErr.insertManyConvert iDesc)) ∧
    (UpdateOne (E := E) zeroI iDesc
        (Except.ok ⟨m, mo, up, some (DynID.foreign actual)⟩) =
      Except.error (RepoErr.updateOneConvert actual iDesc)) ∧
    (UpdateByID (E := E) zeroI idArg iDesc
        (Except.ok ⟨m, mo, up, some (DynID.foreign actual)⟩) =
      Except.error (RepoErr.updateByIDConvert actual iDesc)) ∧
    (UpdateMany (E := E) zeroI iDesc
        (Except.ok ⟨m, mo, up, some (DynID.foreign actual)⟩) =
      Except.error (RepoErr.updateManyConvert actual iDesc)) ∧
    ((RepoErr.insertOneConvert (E := E) iDesc).mismatchExpected = some iDesc ∧
      (RepoErr.insertOneConvert (E := E) iDesc).mismatchActual = none) ∧
    ((RepoErr.insertManyConvert (E := E) iDesc).mismatchExpected = some iDesc ∧
      (RepoErr.insertManyConvert (E := E) iDesc).mismatchActual = none) ∧
    ((RepoErr.updateOneConvert (E := E) actual iDesc).mismatchExpected =
        some iDesc ∧
      (RepoErr.updateOneConvert (E := E) actual iDesc).mismatchActual =
        some actual) ∧
    ((RepoErr.updateByIDConvert (E := E) actual iDesc).mismatchExpected =
        some iDesc ∧
      (RepoErr.updateByIDConvert (E := E) actual iDesc).mismatchActual =
        some actual) ∧
    ((RepoErr.updateManyConvert (E := E) actual iDesc).mismatchExpected =
        some iDesc ∧
      (RepoErr.updateManyConvert (E := E) actual iDesc).mismatchActual =
        some actual) := by
  refine ⟨rfl, ?_, rfl, rfl, rfl, ⟨rfl, rfl⟩, ⟨rfl, rfl⟩, ⟨rfl, rfl⟩,
    ⟨rfl, rfl⟩, ⟨rfl, rfl⟩⟩
  rintro ⟨s, hmem⟩
  simp [InsertMany, convertInsertedIDs_eq_none_of_foreign dyns s hmem]

/-- Claim C5 (amended) witness: concrete instances of the conversion
failures and their message contents. -/
theorem mismatch_error_type_descriptions_witness :
    InsertMany (I := Int) (E := Unit) "int"
        (Except.ok ⟨[DynID.typed 4, DynID.foreign "string"]⟩) =
      Except.error (RepoErr.insertManyConvert "int") ∧
    (RepoErr.updateOneConvert (E := Unit) "string" "int").mismatchActual =
      some "string" :=
  ⟨(mismatch_error_type_descriptions (E := Unit) (0 : Int) 0 "int" "string"
      1 1 0 [DynID.typed 4, DynID.foreign "string"]).2.1
      ⟨"string", by simp⟩,
    (mismatch_error_type_descriptions (E := Unit) (0 : Int) 0 "int" "string"
      1 1 0 [DynID.typed 4, DynID.foreign "string"]).2.2.2.2.2.2.2.2.1.2⟩

/-- Claim C6: a successful `InsertMany` returns the store identifiers
converted position by position — success happens exactly when every store
identifier has the caller's type, the output has the same length, and the
i-th input is the typed wrapper of the i-th output — while a single
foreign identifier anywhere fails the whole call with the
`ErrInsertMany`-marked conversion error and no partial list. -/
theorem insertMany_order_preserving_and_atomic {I E : Type}
    (iDesc : TypeDesc) (dyns : List (DynID I)) :
    (∀ ids : List I, InsertMany (E := E) iDesc (Except.ok ⟨dyns⟩) =
        Except.ok ids ↔ dyns = ids.map DynID.typed) ∧
    (∀ ids : List I, InsertMany (E := E) iDesc (Except.ok ⟨dyns⟩) =
        Except.ok ids →
      ids.length = dyns.length ∧
      ∀ i : Nat, dyns[i]? = (ids[i]?).map DynID.typed) ∧
    ((∃ s, DynID.foreign s ∈ dyns) →
      InsertMany (E := E) iDesc (Except.ok ⟨dyns⟩) =
        Except.error (RepoErr.insertManyConvert iDesc)) := by
  have hmain : ∀ ids : List I, InsertMany (E := E) iDesc (Except.ok ⟨dyns⟩) =
      Except.ok ids ↔ dyns = ids.map DynID.typed := by
    intro ids
    constructor
    · intro h
      rcases hconv : convertInsertedIDs dyns with _ | converted
      · simp [InsertMany, hconv] at h
      · simp only [InsertMany, hconv] at h
        injection h with h2
        subst h2
        exact convertInsertedIDs_eq_some_imp _ _ hconv
    · intro h
      have hconv := (convertInsertedIDs_eq_some_iff dyns ids).mpr h
      simp [InsertMany, hconv]
  refine ⟨hmain, fun ids h => ?_, ?_⟩
  · have heq := (hmain ids).mp h
    subst heq
    refine ⟨by simp, fun i => ?_⟩
    simp [List.getElem?_map]
  · rintro ⟨s, hmem⟩
    simp [InsertMany, convertInsertedIDs_eq_none_of_foreign dyns s hmem]

/-- Claim C6 witness: a concrete all-typed insert succeeds in order and a
concrete insert with one foreign identifier fails whole. -/
theorem insertMany_order_preserving_and_atomic_witness :
    InsertMany (I := Int) (E := Unit) "int"
        (Except.ok ⟨[DynID.typed 10, DynID.typed 20]⟩) =
      Except.ok [10, 20] ∧
    InsertMany (I := Int) (E := Unit) "int"
        (Except.ok ⟨[DynID.typed 10, DynID.foreign "string"]⟩) =
      Except.error (RepoErr.insertManyConvert "int") :=
  ⟨((insertMany_order_preserving_and_atomic (E := Unit) "int"
        [DynID.typed 10, DynID.typed 20]).1 [10, 20]).mpr rfl,
    (insertMany_order_preserving_and_atomic (E := Unit) "int"
      [DynID.typed 10, DynID.foreign "string"]).2.2 ⟨"string", by simp⟩⟩

/-- Claim C7: every error any facade operation returns carries that
operation's distinct marker, and whenever the failure originated in the
collaborator the collaborator's error is preserved as the wrapped cause;
in particular `FindOne` wraps both the no-document case
(`result.Err()` non-nil) and the decode-failure case under the single
`ErrFindOne` marker, each with its cause inspectable. -/
theorem errors_wrap_operation_marker_and_cause {M I E : Type}
    (zeroI idArg : I) (iDesc : TypeDesc) :
    (∀ (result : SingleResult M E) re, FindOne result = Except.error re →
      re.marker = Marker.findOne ∧ re.cause.isSome = true) ∧
    (∀ (e : E) (dec : Except E M),
      FindOne ⟨some e, dec⟩ = Except.error (RepoErr.findOneWrap e) ∧
      (RepoErr.findOneWrap e).cause = some e) ∧
    (∀ e : E,
      FindOne (M := M) ⟨none, Except.error e⟩ =
        Except.error (RepoErr.findOneDecode e) ∧
      (RepoErr.findOneDecode e).cause = some e) ∧
    (∀ (query : Except E (FindCursor M E)) re, Find query = Except.error re →
      re.marker = Marker.find ∧ re.cause.isSome = true) ∧
    (∀ e : E, Find (M := M) (Except.error e) =
        Except.error (RepoErr.findWrap e) ∧
      (RepoErr.findWrap e).cause = some e) ∧
    (∀ e : E, Find (M := M) (Except.ok ⟨Except.error e⟩) =
        Except.error (RepoErr.findDecode e) ∧
      (RepoErr.findDecode e).cause = some e) ∧
    (∀ (query : Except E (StreamCursor M E)) re,
      (FindStream query).err = some re →
      re.marker = Marker.findStream ∧ re.cause.isSome = true) ∧
    (∀ e : E, (RepoErr.findStreamDecode (E := E) e).marker =
        Marker.findStream ∧
      (RepoErr.findStreamDecode e).cause = some e ∧
      (RepoErr.findStreamCursor (E := E) e).marker = Marker.findStream ∧
      (RepoErr.findStreamCursor e).cause = some e) ∧
    (∀ (outcome : Except E (InsertOneResult I)) re,
      InsertOne iDesc outcome = Except.error re →
      re.marker = Marker.insertOne) ∧
    (∀ e : E, InsertOne (I := I) iDesc (Except.error e) =
        Except.error (RepoErr.insertOneWrap e) ∧
      (RepoErr.insertOneWrap e).cause = some e) ∧
    (∀ (outcome : Except E (InsertManyResult I)) re,
      InsertMany iDesc outcome = Except.error re →
      re.marker = Marker.insertMany) ∧
    (∀ e : E, InsertMany (I := I) iDesc (Except.error e) =
        Except.error (RepoErr.insertManyWrap e) ∧
      (RepoErr.insertManyWrap e).cause = some e) ∧
    (∀ (outcome : Except E (MongoUpdateResult I)) re,
      UpdateOne zeroI iDesc outcome = Except.error re →
      re.marker = Marker.updateOne) ∧
    (∀ e : E, UpdateOne (I := I) zeroI iDesc (Except.error e) =
        Except.error (RepoErr.updateOneWrap e) ∧
      (RepoErr.updateOneWrap e).cause = some e) ∧
    (∀ (outcome : Except E (MongoUpdateResult I)) re,
      UpdateByID zeroI idArg iDesc outcome = Except.error re →
      re.marker = Marker.updateByID) ∧
    (∀ e : E, UpdateByID (I := I) zeroI idArg iDesc (Except.error e) =
        Except.error (RepoErr.updateByIDWrap e) ∧
      (RepoErr.updateByIDWrap e).cause = some e) ∧
    (∀ (outcome : Except E (MongoUpdateResult I)) re,
      UpdateMany zeroI iDesc outcome = Except.error re →
      re.marker = Marker.updateMany) ∧
    (∀ e : E, UpdateMany (I := I) zeroI iDesc (Except.error e) =
        Except.error (RepoErr.updateManyWrap e) ∧
      (RepoErr.updateManyWrap e).cause = some e) ∧
    (∀ (outcome : Except E DeleteResult) re,
      DeleteOne outcome = Except.error re →
      re.marker = Marker.deleteOne ∧ re.cause.isSome = true) ∧
    (∀ e : E, DeleteOne (Except.error e) =
        Except.error (RepoErr.deleteOneWrap e) ∧
      (RepoErr.deleteOneWrap e).cause = some e) ∧
    (∀ (outcome : Except E DeleteResult) re,
      DeleteMany outcome = Except.error re →
      re.marker = Marker.deleteMany ∧ re.cause.isSome = true) ∧
    (∀ e : E, DeleteMany (Except.error e) =
        Except.error (RepoErr.deleteManyWrap e) ∧
      (RepoErr.deleteManyWrap e).cause = some e) := by
  refine ⟨?_, fun e dec => ⟨rfl, rfl⟩, fun e => ⟨rfl, rfl⟩, ?_,
    fun e => ⟨rfl, rfl⟩, fun e => ⟨rfl, rfl⟩, ?_, fun e => ⟨rfl, rfl, rfl, rfl⟩,
    ?_, fun e => ⟨rfl, rfl⟩, ?_, fun e => ⟨rfl, rfl⟩, ?_, fun e => ⟨rfl, rfl⟩,
    ?_, fun e => ⟨rfl, rfl⟩, ?_, fun e => ⟨rfl, rfl⟩, ?_, fun e => ⟨rfl, rfl⟩,
    ?_, fun e => ⟨rfl, rfl⟩⟩
  · rintro ⟨err, dec⟩ re h
    cases err with
    | some e =>
      simp only [FindOne] at h
      injection h with h2
      subst h2
      exact ⟨rfl, rfl⟩
    | none =>
      cases dec with
      | error e =>
        simp only [FindOne] at h
        injection h with h2
        subst h2
        exact ⟨rfl, rfl⟩
      | ok v => simp [FindOne] at h
  · rintro (_ | ⟨(_ | values)⟩) re h
    · simp only [Find] at h
      injection h with h2
      subst h2
      exact ⟨rfl, rfl⟩
    · simp only [Find] at h
      injection h with h2
      subst h2
      exact ⟨rfl, rfl⟩
    · simp [Find] at h
  · rintro (_ | c) re h
    · simp only [FindStream] at h
      injection h with h2
      subst h2
      exact ⟨rfl, rfl⟩
    · simp [FindStream] at h
  · rintro (_ | ⟨(_ | d)⟩) re h
    · simp only [InsertOne] at h
      injection h with h2
      subst h2
      rfl
    · simp [InsertOne] at h
    · simp only [InsertOne] at h
      injection h with h2
      subst h2
      rfl
  · rintro (_ | ⟨⟨dyns⟩⟩) re h
    · simp only [InsertMany] at h
      injection h with h2
      subst h2
      rfl
    · rcases hconv : convertInsertedIDs dyns with _ | converted
      · simp only [InsertMany, hconv] at h
        injection h with h2
        subst h2
        rfl
      · simp [InsertMany, hconv] at h
  · rintro (_ | ⟨m, mo, up, (_ | (v | d))⟩) re h
    · simp only [UpdateOne] at h
      injection h with h2
      subst h2
      rfl
    · simp [UpdateOne, updateResultOf] at h
    · simp [UpdateOne, updateResultOf] at h
    · simp only [UpdateOne, updateResultOf] at h
      injection h with h2
      subst h2
      rfl
  · rintro (_ | ⟨m, mo, up, (_ | (v | d))⟩) re h
    · simp only [UpdateByID] at h
      injection h with h2
      subst h2
      rfl
    · simp [UpdateByID, updateResultOf] at h
    · simp [UpdateByID, updateResultOf] at h
    · simp only [UpdateByID, updateResultOf] at h
      injection h with h2
      subst h2
      rfl
  · rintro (_ | ⟨m, mo, up, (_ | (v | d))⟩) re h
    · simp only [UpdateMany] at h
      injection h with h2
      subst h2
      rfl
    · simp [UpdateMany, updateResultOf] at h
    · simp [UpdateMany, updateResultOf] at h
    · simp only [UpdateMany, updateResultOf] at h
      injection h with h2
      subst h2
      rfl
  · rintro (_ | r) re h
    · simp only [DeleteOne] at h
      injection h with h2
      subst h2
      exact ⟨rfl, rfl⟩
    · simp [DeleteOne] at h
  · rintro (_ | r) re h
    · simp only [DeleteMany] at h
      injection h with h2
      subst h2
      exact ⟨rfl, rfl⟩
    · simp [DeleteMany] at h

/-- Claim C7 witness: the general marker fact applied to a concrete
no-document `FindOne` failure and a concrete decode failure. -/
theorem errors_wrap_operation_marker_and_cause_witness :
    ((RepoErr.findOneWrap (E := Nat) 3).marker = Marker.findOne ∧
      (RepoErr.findOneWrap (E := Nat) 3).cause.isSome = true) ∧
    (FindOne (M := Nat) ⟨none, Except.error 7⟩ =
        Except.error (RepoErr.findOneDecode 7) ∧
      (RepoErr.findOneDecode (E := Nat) 7).cause = some 7) :=
  ⟨(errors_wrap_operation_marker_and_cause (M := Nat) (I := Nat) (E := Nat)
      0 0 "T").1 ⟨some 3, Except.ok 0⟩ (RepoErr.findOneWrap 3) rfl,
    (errors_wrap_operation_marker_and_cause (M := Nat) (I := Nat) (E := Nat)
      0 0 "T").2.2.1 7⟩

/-- Claim C10: `NewRepository` succeeds — resolving the namespace and the
collection by calling the two capability methods on the zero value of the
model type (a nil receiver for a pointer model) — exactly when neither
method panics on that zero receiver; a panic in `GetDatabaseName` or, it
succeeding, in `GetCollectionName` propagates, while two non-panicking
methods yield the repository carrying their results. -/
theorem newRepository_ok_iff_contract_methods_ok (m : ModelContract) :
    ((∃ r, NewRepository m = Except.ok r) ↔
      (∃ db, m.getDatabaseNameOnZero = Except.ok db) ∧
      (∃ col, m.getCollectionNameOnZero = Except.ok col)) ∧
    (∀ db col, m.getDatabaseNameOnZero = Except.ok db →
      m.getCollectionNameOnZero = Except.ok col →
      NewRepository m = Except.ok ⟨db, col⟩) ∧
    (∀ p, m.getDatabaseNameOnZero = Except.error p →
      NewRepository m = Except.error p) ∧
    (∀ db p, m.getDatabaseNameOnZero = Except.ok db →
      m.getCollectionNameOnZero = Except.error p →
      NewRepository m = Except.error p) := by
  obtain ⟨hdb, hcol⟩ := m
  cases hdb with
  | error p =>
    refine ⟨?_, ?_, ?_, ?_⟩
    · constructor
      · rintro ⟨r, hr⟩
        cases hr
      · rintro ⟨⟨db, hdb2⟩, _⟩
        cases hdb2
    · intro db col hdb2 hcol2
      cases hdb2
    · intro p2 hp
      injection hp with h2
      subst h2
      rfl
    · intro db p2 hdb2 hcol2
      cases hdb2
  | ok db =>
    cases hcol with
    | error p =>
      refine ⟨?_, ?_, ?_, ?_⟩
      · constructor
        · rintro ⟨r, hr⟩
          cases hr
        · rintro ⟨_, ⟨col, hcol2⟩⟩
          cases hcol2
      · intro db2 col hdb2 hcol2
        cases hcol2
      · intro p2 hp
        cases hp
      · intro db2 p2 hdb2 hcol2
        injection hcol2 with h2
        subst h2
        rfl
    | ok col =>
      refine ⟨?_, ?_, ?_, ?_⟩
      · exact ⟨fun _ => ⟨⟨db, rfl⟩, ⟨col, rfl⟩⟩, fun _ => ⟨⟨db, col⟩, rfl⟩⟩
      · intro db2 col2 hdb2 hcol2
        injection hdb2 with h2
        injection hcol2 with h3
        subst h2
        subst h3
        rfl
      · intro p2 hp
        cases hp
      · intro db2 p2 hdb2 hcol2
        cases hcol2

/-- Claim C10 witness: a contract whose methods never touch their nil
receiver constructs the repository, and one whose database-name method
dereferences the nil receiver propagates the panic. -/
theorem newRepository_ok_iff_contract_methods_ok_witness :
    NewRepository ⟨Except.ok "users_db", Except.ok "users_col"⟩ =
      Except.ok ⟨"users_db", "users_col"⟩ ∧
    NewRepository ⟨Except.error GoPanic.nilDereference, Except.ok "c"⟩ =
      Except.error GoPanic.nilDereference :=
  ⟨(newRepository_ok_iff_contract_methods_ok
      ⟨Except.ok "users_db", Except.ok "users_col"⟩).2.1
      "users_db" "users_col" rfl rfl,
    (newRepository_ok_iff_contract_methods_ok
      ⟨Except.error GoPanic.nilDereference, Except.ok "c"⟩).2.2.1
      GoPanic.nilDereference rfl⟩

end MongoRepo
